import Mathlib

/-!
Verification development for the stock screener script
(`stock_screener.py`).  The computational core of the script is embedded
shallowly: pandas series become Lean lists, float NaN/inf behaviour is
made explicit through the `PVal` type (for the rational-valued RSI
pipeline) and `Option` (for columns whose undefined entries are pandas
NaN), and the per-ticker analysis becomes a total function returning a
sum type of error-tagged and successful results.
-/

namespace StockScreener

/-- Model of an IEEE float value as used by the pandas computations in
the script: `nan` for NaN, `inf`/`ninf` for the signed infinities that
arise from division by zero, and `val q` for an ordinary (finite)
value, represented exactly as a rational. -/
inductive PVal where
  | nan : PVal
  | inf : PVal
  | ninf : PVal
  | val (q : ℚ) : PVal
deriving DecidableEq, Repr

/-- Float addition on `PVal` (NaN propagates, opposite infinities give
NaN, an infinity otherwise absorbs). -/
def padd : PVal → PVal → PVal
  | .val a, .val b => .val (a + b)
  | .nan, _ => .nan
  | _, .nan => .nan
  | .inf, .ninf => .nan
  | .ninf, .inf => .nan
  | .inf, _ => .inf
  | _, .inf => .inf
  | .ninf, _ => .ninf
  | _, .ninf => .ninf

/-- Float negation on `PVal`. -/
def pneg : PVal → PVal
  | .nan => .nan
  | .inf => .ninf
  | .ninf => .inf
  | .val q => .val (-q)

/-- Float subtraction on `PVal`. -/
def psub (a b : PVal) : PVal := padd a (pneg b)

/-- Float division on `PVal`, following numpy semantics on the paths the
script exercises: finite/0 gives a signed infinity (NaN for 0/0),
finite/infinite gives 0, NaN propagates. -/
def pdiv : PVal → PVal → PVal
  | .nan, _ => .nan
  | _, .nan => .nan
  | .val a, .val b =>
      if b = 0 then (if 0 < a then .inf else if a < 0 then .ninf else .nan)
      else .val (a / b)
  | .val _, .inf => .val 0
  | .val _, .ninf => .val 0
  | .inf, .val b => if 0 ≤ b then .inf else .ninf
  | .ninf, .val b => if 0 ≤ b then .ninf else .inf
  | _, _ => .nan

/-- View an optional rational (a possibly-undefined series entry) as a
`PVal`: an absent value is NaN. -/
def pvOf : Option ℚ → PVal
  | none => .nan
  | some q => .val q

/-- `Series.fillna(d)`: replace NaN by the constant `d`, keep every
other value. -/
def pvFill (d : ℚ) : PVal → PVal
  | .nan => .val d
  | v => v

/-- Round a rational to 2 decimal places (the `round(x, 2)` calls of the
script; Python rounds ties to even on floats, a distinction that never
matters for the properties proved here). -/
def round2Q (q : ℚ) : ℚ := ((round (q * 100) : ℤ) : ℚ) / 100

/-- Round a `PVal` to 2 decimal places; NaN and infinities are kept. -/
def pvRound2 : PVal → PVal
  | .val q => .val (round2Q q)
  | v => v

/-- `Series.rolling(window=w).mean()` at position `i`: the mean of the
`w` entries ending at `i`, undefined (pandas NaN, here `none`) while
fewer than `w` observations are available or past the end. -/
def rollingMeanO (w : ℕ) (xs : List ℚ) (i : ℕ) : Option ℚ :=
  if w ≤ i + 1 ∧ i < xs.length then
    some ((((xs.drop (i + 1 - w)).take w).sum) / (w : ℚ))
  else none

/-- `Series.fillna(method=bfill)` read at position `i` of a series of
length `n`: the first defined entry at position `i` or later (pandas
backfill replaces each NaN by the next later non-NaN value; trailing
NaN stays NaN, here `none`). -/
def bfillAt (col : ℕ → Option α) (n i : ℕ) : Option α :=
  ((List.range n).drop i).findSome? col

/-- `data[Close].diff()`: NaN at the first bar, then consecutive close
differences. -/
def deltaList : List ℚ → List PVal
  | [] => []
  | c :: cs => .nan :: List.zipWith (fun a b => PVal.val (a - b)) cs (c :: cs)

/-- One entry of `delta.where(delta > 0, 0)`: keep a value where it is
positive, replace by 0 elsewhere (a NaN compares false, so it also
becomes 0). -/
def gainEntry : PVal → ℚ
  | .val q => if 0 < q then q else 0
  | _ => 0

/-- One entry of `-delta.where(delta < 0, 0)`: the negation of a value
kept where negative, 0 elsewhere (NaN again becomes 0). -/
def lossEntry : PVal → ℚ
  | .val q => if q < 0 then -q else 0
  | _ => 0

/-- The gain series of `calculate_rsi`. -/
def gainSeries (closes : List ℚ) : List ℚ := (deltaList closes).map gainEntry

/-- The loss series of `calculate_rsi`. -/
def lossSeries (closes : List ℚ) : List ℚ := (deltaList closes).map lossEntry

/-- The RSI formula applied to a gain and a loss mean:
`100 - (100 / (1 + gain / loss))` in float arithmetic. -/
def pvRsi (g l : PVal) : PVal :=
  psub (.val 100) (pdiv (.val 100) (padd (.val 1) (pdiv g l)))

/-- `calculate_rsi(data, period)` read at bar `i`: rolling means of the
gain and loss series, then the RSI formula. -/
def calculate_rsi (closes : List ℚ) (period : ℕ) (i : ℕ) : PVal :=
  pvRsi (pvOf (rollingMeanO period (gainSeries closes) i))
    (pvOf (rollingMeanO period (lossSeries closes) i))

/-- An OHLCV bar, restricted to the columns the analysis reads. -/
structure Bar where
  high : ℚ
  low : ℚ
  close : ℚ
deriving DecidableEq, Repr

/-- True range of a bar given the previous close:
`max(high - low, |high - prevClose|, |low - prevClose|)`. -/
def trueRange3 (b : Bar) (prevClose : ℚ) : ℚ :=
  max (b.high - b.low) (max |b.high - prevClose| |b.low - prevClose|)

/-- The per-bar true-range series of `calculate_atr`.  At the first bar
`Close.shift()` is NaN, and the row-wise `max` of pandas skips NaN, so
the first true range is `high - low`. -/
def trueRangeList : List Bar → List ℚ
  | [] => []
  | b :: bs =>
      (b.high - b.low) :: List.zipWith (fun cur prev => trueRange3 cur prev.close) bs (b :: bs)

/-- `calculate_atr(data, period)` read at bar `i`: the rolling mean of
the true-range series. -/
def calculate_atr (bars : List Bar) (period : ℕ) (i : ℕ) : Option ℚ :=
  rollingMeanO period (trueRangeList bars) i

/-- `Series.ewm(span=s, adjust=False).mean()`: the exponential recursion
`ema_t = a * x_t + (1 - a) * ema_(t-1)` with `a = 2 / (s + 1)`, seeded
by the first value. -/
def ewmList (span : ℕ) : List ℚ → List ℚ
  | [] => []
  | x :: xs =>
      List.scanl (fun prev p =>
        (2 / ((span : ℚ) + 1)) * p + (1 - 2 / ((span : ℚ) + 1)) * prev) x xs

/-- `calculate_macd(data)`: the MACD line (12-span EMA minus 26-span
EMA of close) and its 9-span EMA signal line. -/
def calculate_macd (closes : List ℚ) : List ℚ × List ℚ :=
  let macd_line := List.zipWith (fun a b => a - b) (ewmList 12 closes) (ewmList 26 closes)
  (macd_line, ewmList 9 macd_line)

/-- `Series.rolling(window=w).std()` at position `i`: the sample
standard deviation (pandas default `ddof=1`) of the `w` entries ending
at `i`, as a real number, undefined while fewer than `w` observations
are available. -/
noncomputable def rollingStd (w : ℕ) (xs : List ℚ) (i : ℕ) : Option ℝ :=
  (rollingMeanO w xs i).map fun m =>
    Real.sqrt (((((xs.drop (i + 1 - w)).take w).map fun x => (x - m) ^ 2).sum : ℚ) / ((w : ℚ) - 1))

/-- The raw `Upper_BB` entry at bar `i` (before the backfill of the
script): 20-bar rolling mean of close plus twice the 20-bar rolling
standard deviation. -/
noncomputable def upperBBCol (closes : List ℚ) (i : ℕ) : Option ℝ :=
  (rollingMeanO 20 closes i).bind fun m =>
    (rollingStd 20 closes i).map fun s => (m : ℝ) + 2 * s

/-- The raw `Lower_BB` entry at bar `i` (before the backfill of the
script): 20-bar rolling mean of close minus twice the 20-bar rolling
standard deviation. -/
noncomputable def lowerBBCol (closes : List ℚ) (i : ℕ) : Option ℝ :=
  (rollingMeanO 20 closes i).bind fun m =>
    (rollingStd 20 closes i).map fun s => (m : ℝ) - 2 * s

/-- Round a real to 2 decimal places (the `round(x, 2)` of the script
applied to the real-valued band arithmetic). -/
noncomputable def roundR2 (x : ℝ) : ℝ := ((round (x * 100) : ℤ) : ℝ) / 100

/-- Possibly-NaN real float: `none` encodes NaN. -/
abbrev PReal := Option ℝ

/-- Float addition on possibly-NaN reals. -/
noncomputable def prAdd : PReal → PReal → PReal
  | some a, some b => some (a + b)
  | _, _ => none

/-- Float subtraction on possibly-NaN reals. -/
noncomputable def prSub : PReal → PReal → PReal
  | some a, some b => some (a - b)
  | _, _ => none

/-- Scaling of a possibly-NaN real by a rational constant. -/
noncomputable def prScale (c : ℚ) : PReal → PReal
  | some a => some ((c : ℝ) * a)
  | none => none

/-- Rounding of a possibly-NaN real to 2 decimal places. -/
noncomputable def prRound2 : PReal → PReal := Option.map roundR2

/-- `Series.mean()` with the pandas default `skipna=True`: the mean of
the defined entries, NaN when there is none. -/
noncomputable def prMean (xs : List PReal) : PReal :=
  match xs.filterMap id with
  | [] => none
  | ys => some (ys.sum / (ys.length : ℝ))

/-- One row of the augmented frame as read by `calculate_ranges` (and,
for the oscillator-gating discussion, the RSI and close columns of the
same row). -/
structure RangeRow where
  lower_bb : PReal
  upper_bb : PReal
  atr : PReal
  rsi : PVal
  close : ℚ

/-- `calculate_ranges(data_period)` from the script: `(None, None,
None)` on an empty window; otherwise the buy range `(buy - atr, buy +
atr)` around the window mean of `Lower_BB`, the sell range `(sell -
atr, sell + atr)` around the window mean of `Upper_BB`, and the stop
loss `buy - 2 * atr`, every component rounded to 2 decimal places
(`atr` is the window mean of the ATR column). -/
noncomputable def calculate_ranges (w : List RangeRow) :
    Option (PReal × PReal) × Option (PReal × PReal) × Option PReal :=
  match w with
  | [] => (none, none, none)
  | _ :: _ =>
      let buy := prMean (w.map RangeRow.lower_bb)
      let sell := prMean (w.map RangeRow.upper_bb)
      let atr := prMean (w.map RangeRow.atr)
      (some (prRound2 (prSub buy atr), prRound2 (prAdd buy atr)),
       some (prRound2 (prSub sell atr), prRound2 (prAdd sell atr)),
       some (prRound2 (prSub buy (prScale 2 atr))))

/-- The `RSI` column attached at line 57 of the script:
`calculate_rsi(data).fillna(50)`. -/
def rsiFilled (closes : List ℚ) (i : ℕ) : PVal :=
  pvFill 50 (calculate_rsi closes 14 i)

/-- The `ATR` column attached at line 58 of the script:
`calculate_atr(data).fillna(method=bfill)`. -/
def atrFilled (bars : List Bar) (i : ℕ) : Option ℚ :=
  bfillAt (calculate_atr bars 14) bars.length i

/-- The `50_MA` column attached at line 59 of the script. -/
def ma50Filled (closes : List ℚ) (i : ℕ) : Option ℚ :=
  bfillAt (rollingMeanO 50 closes) closes.length i

/-- The `200_MA` column attached at line 60 of the script. -/
def ma200Filled (closes : List ℚ) (i : ℕ) : Option ℚ :=
  bfillAt (rollingMeanO 200 closes) closes.length i

/-- The `Upper_BB` column attached at line 61 of the script (backfilled
band values). -/
noncomputable def upperBBFilled (closes : List ℚ) (i : ℕ) : Option ℝ :=
  bfillAt (upperBBCol closes) closes.length i

/-- The `Lower_BB` column attached at line 62 of the script (backfilled
band values). -/
noncomputable def lowerBBFilled (closes : List ℚ) (i : ℕ) : Option ℝ :=
  bfillAt (lowerBBCol closes) closes.length i

/-- The fetched frame as the analysis sees it: the bars, and presence
flags for the three OHLCV columns the analysis reads (an absent column
makes the pandas column access raise `KeyError`). -/
structure RawData where
  bars : List Bar
  hasClose : Bool
  hasHigh : Bool
  hasLow : Bool

/-- The per-timeframe level fields and last indicator values of a
successful analysis. -/
structure AnalysisRecord where
  ticker : String
  dailyBuy : Option (PReal × PReal)
  weeklyBuy : Option (PReal × PReal)
  monthlyBuy : Option (PReal × PReal)
  dailySell : Option (PReal × PReal)
  weeklySell : Option (PReal × PReal)
  monthlySell : Option (PReal × PReal)
  dailyStop : Option PReal
  weeklyStop : Option PReal
  monthlyStop : Option PReal
  rsiLast : PVal
  macdLast : Option ℚ
  signalLast : Option ℚ
  atrLast : Option ℚ

/-- The per-ticker screening result: an error-tagged dictionary
`(Ticker, Error)` or the successful record. -/
inductive ScreeningResult where
  | err (ticker reason : String) : ScreeningResult
  | ok (r : AnalysisRecord) : ScreeningResult

/-- The close column of a frame. -/
def closesOf (d : RawData) : List ℚ := d.bars.map Bar.close

/-- The augmented frame row at index `i`: the backfilled band, ATR and
RSI columns together with the close. -/
noncomputable def augRow (d : RawData) (i : ℕ) : RangeRow :=
  { lower_bb := lowerBBFilled (closesOf d) i
    upper_bb := upperBBFilled (closesOf d) i
    atr := (atrFilled d.bars i).map fun q => (q : ℝ)
    rsi := rsiFilled (closesOf d) i
    close := ((closesOf d).getD i 0) }

/-- The last `k` rows of the augmented frame (`data[-k:]` for a frame
of at least `k` rows). -/
noncomputable def windowRows (d : RawData) (k : ℕ) : List RangeRow :=
  ((List.range d.bars.length).drop (d.bars.length - k)).map (augRow d)

/-- `fetch_and_analyze_data(ticker)` of the script, with the upstream
fetch made explicit as an `Except` argument: a failed fetch raises and
is caught (`.error`), a frame of fewer than 200 bars returns the
not-enough-data error, a missing OHLCV column raises `KeyError` and is
caught, and otherwise the indicator columns are attached and the three
tail windows (last 1, 5 and 20 rows) are scored by
`calculate_ranges`. -/
noncomputable def fetch_and_analyze_data (ticker : String)
    (fetched : Except String RawData) : ScreeningResult :=
  match fetched with
  | .error e => .err ticker e
  | .ok d =>
      if d.bars.length < 200 then .err ticker "Not enough data for 200-day MA"
      else if d.hasClose && d.hasHigh && d.hasLow then
        let n := d.bars.length
        let closes := closesOf d
        let dailyRanges := calculate_ranges (windowRows d 1)
        let weeklyRanges := calculate_ranges (windowRows d 5)
        let monthlyRanges := calculate_ranges (windowRows d 20)
        .ok
          { ticker := ticker
            dailyBuy := dailyRanges.1
            weeklyBuy := weeklyRanges.1
            monthlyBuy := monthlyRanges.1
            dailySell := dailyRanges.2.1
            weeklySell := weeklyRanges.2.1
            monthlySell := monthlyRanges.2.1
            dailyStop := dailyRanges.2.2
            weeklyStop := weeklyRanges.2.2
            monthlyStop := monthlyRanges.2.2
            rsiLast := pvRound2 (rsiFilled closes (n - 1))
            macdLast := ((calculate_macd closes).1.getLast?).map round2Q
            signalLast := ((calculate_macd closes).2.getLast?).map round2Q
            atrLast := (atrFilled d.bars (n - 1)).map round2Q }
      else .err ticker "KeyError"

/-- Line 103 of the script: the batch list comprehension over the
tickers, each analysed with its own fetched data. -/
noncomputable def results (tickers : List String)
    (fetch : String → Except String RawData) : List ScreeningResult :=
  tickers.map fun t => fetch_and_analyze_data t (fetch t)

/-- The local failure conditions of the per-ticker analysis: a failed
upstream fetch, a series of fewer than 200 bars (which covers the
empty series), or a missing required OHLCV column. -/
def localFailure : Except String RawData → Prop
  | .error _ => True
  | .ok d =>
      d.bars.length < 200 ∨ d.hasClose = false ∨ d.hasHigh = false ∨ d.hasLow = false

/-- The value of a `PVal` lies in a closed rational interval (false for
NaN and the infinities). -/
def pvInRange (lo hi : ℚ) : PVal → Prop
  | .val q => lo ≤ q ∧ q ≤ hi
  | _ => False

/-! ### Helper lemmas -/

lemma gainSeries_length (closes : List ℚ) :
    (gainSeries closes).length = (lossSeries closes).length := by
  simp [gainSeries, lossSeries]

lemma gainSeries_nonneg (closes : List ℚ) : ∀ x ∈ gainSeries closes, 0 ≤ x := by
  intro x hx
  simp only [gainSeries, List.mem_map] at hx
  obtain ⟨d, -, rfl⟩ := hx
  cases d <;> simp [gainEntry]
  split <;> [linarith; exact le_refl 0]

lemma lossSeries_nonneg (closes : List ℚ) : ∀ x ∈ lossSeries closes, 0 ≤ x := by
  intro x hx
  simp only [lossSeries, List.mem_map] at hx
  obtain ⟨d, -, rfl⟩ := hx
  cases d <;> simp [lossEntry]
  split <;> [linarith; exact le_refl 0]

lemma rollingMeanO_nonneg {w : ℕ} {xs : List ℚ} {i : ℕ} {q : ℚ}
    (hxs : ∀ x ∈ xs, 0 ≤ x) (h : rollingMeanO w xs i = some q) : 0 ≤ q := by
  unfold rollingMeanO at h
  split at h
  · obtain rfl : (((xs.drop (i + 1 - w)).take w).sum) / (w : ℚ) = q := by
      exact Option.some.inj h
    refine div_nonneg (List.sum_nonneg fun x hx => ?_) (by positivity)
    exact hxs x (List.mem_of_mem_drop (List.mem_of_mem_take hx))
  · exact absurd h (by simp)

/-- The central shape fact about the filled RSI column: every entry is
a finite value between 0 and 100. -/
lemma rsiFilled_bounds (closes : List ℚ) (i : ℕ) :
    ∃ q : ℚ, rsiFilled closes i = PVal.val q ∧ 0 ≤ q ∧ q ≤ 100 := by
  have hlen := gainSeries_length closes
  unfold rsiFilled calculate_rsi
  by_cases hcond : 14 ≤ i + 1 ∧ i < (gainSeries closes).length
  · have hG : rollingMeanO 14 (gainSeries closes) i =
        some ((((gainSeries closes).drop (i + 1 - 14)).take 14).sum / (14 : ℚ)) := by
      rw [rollingMeanO, if_pos hcond]; norm_num
    have hL : rollingMeanO 14 (lossSeries closes) i =
        some ((((lossSeries closes).drop (i + 1 - 14)).take 14).sum / (14 : ℚ)) := by
      rw [rollingMeanO, if_pos ⟨hcond.1, hlen ▸ hcond.2⟩]; norm_num
    set G := (((gainSeries closes).drop (i + 1 - 14)).take 14).sum / (14 : ℚ) with hGdef
    set L := (((lossSeries closes).drop (i + 1 - 14)).take 14).sum / (14 : ℚ) with hLdef
    have hG0 : 0 ≤ G := rollingMeanO_nonneg (gainSeries_nonneg closes) hG
    have hL0 : 0 ≤ L := rollingMeanO_nonneg (lossSeries_nonneg closes) hL
    rw [hG, hL]
    rcases eq_or_lt_of_le hL0 with hLz | hLpos
    · rcases eq_or_lt_of_le hG0 with hGz | hGpos
      · refine ⟨50, ?_, by norm_num, by norm_num⟩
        simp [pvOf, pvRsi, pdiv, ← hLz, ← hGz, padd, psub, pneg, pvFill]
      · refine ⟨100, ?_, by norm_num, by norm_num⟩
        simp [pvOf, pvRsi, pdiv, ← hLz, hGpos, padd, psub, pneg, pvFill]
    · have hrs : 0 ≤ G / L := div_nonneg hG0 hLpos.le
      have hden : (0 : ℚ) < 1 + G / L := by linarith
      refine ⟨100 - 100 / (1 + G / L), ?_, ?_, ?_⟩
      · simp [pvOf, pvRsi, pdiv, hLpos.ne.symm, padd, hden.ne.symm, psub, pneg, pvFill]
        ring
      · have : 100 / (1 + G / L) ≤ 100 := by
          rw [div_le_iff₀ hden]; nlinarith
        linarith
      · have : 0 < 100 / (1 + G / L) := by positivity
        linarith
  · have hGn : rollingMeanO 14 (gainSeries closes) i = none := by
      rw [rollingMeanO, if_neg hcond]
    have hLn : rollingMeanO 14 (lossSeries closes) i = none := by
      rw [rollingMeanO, if_neg (hlen ▸ hcond)]
    refine ⟨50, ?_, by norm_num, by norm_num⟩
    rw [hGn, hLn]
    rfl

/-! ### C1 -/

/-- C1: the per-ticker analysis fails locally and never propagates an
exception: it is a total function into `ScreeningResult`, and for a
failed upstream fetch, a too-short (or empty) series, or a missing
OHLCV column it returns an error-tagged result carrying the ticker and
a reason string; the batch of line 103 processes every ticker
independently of the outcome of the others. -/
theorem analysis_fails_locally_batch_continues
    (tickers : List String) (fetch : String → Except String RawData) :
    (results tickers fetch).length = tickers.length ∧
    (∀ pre t post, tickers = pre ++ t :: post →
      results tickers fetch =
        results pre fetch ++
          fetch_and_analyze_data t (fetch t) :: results post fetch) ∧
    (∀ (t : String) (fr : Except String RawData), localFailure fr →
      ∃ reason, fetch_and_analyze_data t fr = .err t reason) := by
  refine ⟨by simp [results], ?_, ?_⟩
  · intro pre t post hsplit
    subst hsplit
    simp [results]
  · intro t fr hfr
    match fr with
    | .error e => exact ⟨e, rfl⟩
    | .ok d =>
        by_cases hlen : d.bars.length < 200
        · exact ⟨"Not enough data for 200-day MA", by simp [fetch_and_analyze_data, hlen]⟩
        · rcases hfr with h | h | h | h
          · exact absurd h hlen
          · exact ⟨"KeyError", by simp [fetch_and_analyze_data, hlen, h]⟩
          · exact ⟨"KeyError", by simp [fetch_and_analyze_data, hlen, h]⟩
          · exact ⟨"KeyError", by simp [fetch_and_analyze_data, hlen, h]⟩

/-- Witness for C1 at a concrete batch: two tickers whose fetches both
fail are both reported as error results. -/
theorem analysis_fails_locally_batch_continues_witness :
    (results ["TCS.NS", "INFY.NS"] (fun _ => .error "DataUnavailable")).length = 2 ∧
    (∃ reason,
      fetch_and_analyze_data "TCS.NS" (.error "DataUnavailable") =
        .err "TCS.NS" reason) :=
  ⟨(analysis_fails_locally_batch_continues ["TCS.NS", "INFY.NS"]
      (fun _ => .error "DataUnavailable")).1,
   (analysis_fails_locally_batch_continues ["TCS.NS", "INFY.NS"]
      (fun _ => .error "DataUnavailable")).2.2 "TCS.NS" (.error "DataUnavailable")
      trivial⟩

/-! ### C2 -/

/-- C2: a fetched series with fewer than 200 bars makes the analysis
return the insufficient-data error result for that ticker, never a
computed indicator or level value. -/
theorem short_series_insufficient_data (t : String) (d : RawData)
    (h : d.bars.length < 200) :
    fetch_and_analyze_data t (.ok d) =
      .err t "Not enough data for 200-day MA" := by
  simp [fetch_and_analyze_data, h]

/-- Witness for C2: an empty frame is reported as insufficient data. -/
theorem short_series_insufficient_data_witness :
    (([] : List Bar).length < 200) ∧
    fetch_and_analyze_data "TCS.NS" (.ok ⟨[], true, true, true⟩) =
      .err "TCS.NS" "Not enough data for 200-day MA" :=
  ⟨by decide,
   short_series_insufficient_data "TCS.NS" ⟨[], true, true, true⟩ (by decide)⟩

/-! ### C3 -/

/-- Following the wording of the specification: the list of
day-over-day close differences (the difference at bar `j` sits at
index `j - 1`; the first bar has no difference). -/
def diffList (closes : List ℚ) : List ℚ :=
  List.zipWith (fun a b => a - b) closes.tail closes

/-- Following the wording of the specification: `max(delta, 0)` over
the day-over-day differences. -/
def rsiSpecGain (closes : List ℚ) : List ℚ :=
  (diffList closes).map fun d => max d 0

/-- Following the wording of the specification: `max(-delta, 0)` over
the day-over-day differences. -/
def rsiSpecLoss (closes : List ℚ) : List ℚ :=
  (diffList closes).map fun d => max (-d) 0

/-- The reference RSI of the specification at bar `i`: the rolling
means over the window of `period` differences ending at bar `i` (which
exists once `i` is at least `period`), combined by the same formula,
with `loss = 0` giving `rs` infinite and RSI 100. -/
def rsiSpec (closes : List ℚ) (period i : ℕ) : PVal :=
  pvRsi (pvOf (rollingMeanO period (rsiSpecGain closes) (i - 1)))
    (pvOf (rollingMeanO period (rsiSpecLoss closes) (i - 1)))

lemma gainSeries_cons (c : ℚ) (cs : List ℚ) :
    gainSeries (c :: cs) = 0 :: rsiSpecGain (c :: cs) := by
  have hfun : (fun a b : ℚ => gainEntry (PVal.val (a - b))) =
      fun a b : ℚ => max (a - b) 0 := by
    funext a b
    by_cases h : 0 < a - b
    · simp [gainEntry, h, max_eq_left h.le]
    · simp only [gainEntry, if_neg h]
      rw [max_eq_right (by linarith)]
  simp only [gainSeries, deltaList, List.map_cons, rsiSpecGain, diffList,
    List.tail_cons, List.map_zipWith, hfun]
  rfl

lemma lossSeries_cons (c : ℚ) (cs : List ℚ) :
    lossSeries (c :: cs) = 0 :: rsiSpecLoss (c :: cs) := by
  have hfun : (fun a b : ℚ => lossEntry (PVal.val (a - b))) =
      fun a b : ℚ => max (-(a - b)) 0 := by
    funext a b
    by_cases h : a - b < 0
    · simp only [lossEntry, if_pos h]
      rw [max_eq_left (by linarith)]
    · simp only [lossEntry, if_neg h]
      rw [max_eq_right (by linarith)]
  simp only [lossSeries, deltaList, List.map_cons, rsiSpecLoss, diffList,
    List.tail_cons, List.map_zipWith, hfun]
  rfl

lemma rollingMeanO_cons (w : ℕ) (x : ℚ) (xs : List ℚ) (i : ℕ)
    (hw : 1 ≤ w) (hi : w ≤ i) :
    rollingMeanO w (x :: xs) i = rollingMeanO w xs (i - 1) := by
  unfold rollingMeanO
  rcases Nat.lt_or_ge i (xs.length + 1) with hlen | hlen
  · rw [if_pos ⟨by omega, by simpa using hlen⟩, if_pos ⟨by omega, by omega⟩]
    have h1 : i + 1 - w = (i - w) + 1 := by omega
    have h2 : (i - 1) + 1 - w = i - w := by omega
    rw [h1, h2, List.drop_succ_cons]
  · rw [if_neg (by simp; omega), if_neg (by simp; omega)]

/-- Counterexample to C3 as stated: on the strictly increasing 14-bar
series 1..14 the script computes RSI 100 at bar 13 (the coerced NaN of
the first difference completes the window), while the reference
definition is still undefined there (only 13 differences exist). -/
theorem rsi_reference_counterexample :
    calculate_rsi [1, 2, 3, 4, 5, 6, 7, 8, 9, 10, 11, 12, 13, 14] 14 13 =
      PVal.val 100 ∧
    rsiSpec [1, 2, 3, 4, 5, 6, 7, 8, 9, 10, 11, 12, 13, 14] 14 13 = PVal.nan ∧
    calculate_rsi [1, 2, 3, 4, 5, 6, 7, 8, 9, 10, 11, 12, 13, 14] 14 13 ≠
      rsiSpec [1, 2, 3, 4, 5, 6, 7, 8, 9, 10, 11, 12, 13, 14] 14 13 := by
  have h1 : calculate_rsi [1, 2, 3, 4, 5, 6, 7, 8, 9, 10, 11, 12, 13, 14] 14 13 =
      PVal.val 100 := by
    norm_num [calculate_rsi, gainSeries, lossSeries, deltaList, gainEntry, lossEntry,
      rollingMeanO, pvOf, pvRsi, pdiv, padd, psub, pneg]
  have h2 : rsiSpec [1, 2, 3, 4, 5, 6, 7, 8, 9, 10, 11, 12, 13, 14] 14 13 =
      PVal.nan := by
    norm_num [rsiSpec, rsiSpecGain, rsiSpecLoss, diffList, rollingMeanO, pvOf,
      pvRsi, pdiv, padd, psub, pneg]
  exact ⟨h1, h2, by rw [h1, h2]; exact fun h => PVal.noConfusion h⟩

/-- C3 amended: the RSI computation of the script agrees with the
reference definition at every bar from index `period` on (the two can
only differ at bar `period - 1`, where the script coerces the
undefined first difference to 0), and wherever the rolling loss mean
is 0 while the rolling gain mean is positive the computed RSI is
exactly 100. -/
theorem rsi_matches_reference_from_period (closes : List ℚ) (i : ℕ) :
    (14 ≤ i → calculate_rsi closes 14 i = rsiSpec closes 14 i) ∧
    (∀ g : ℚ, rollingMeanO 14 (gainSeries closes) i = some g → 0 < g →
      rollingMeanO 14 (lossSeries closes) i = some 0 →
      calculate_rsi closes 14 i = PVal.val 100) := by
  constructor
  · intro hi
    match closes with
    | [] =>
        have h1 : rollingMeanO 14 (gainSeries []) i = none := by
          rw [rollingMeanO, if_neg (by simp [gainSeries, deltaList])]
        have h2 : rollingMeanO 14 (lossSeries []) i = none := by
          rw [rollingMeanO, if_neg (by simp [lossSeries, deltaList])]
        have h3 : rollingMeanO 14 (rsiSpecGain []) (i - 1) = none := by
          rw [rollingMeanO, if_neg (by simp [rsiSpecGain, diffList])]
        have h4 : rollingMeanO 14 (rsiSpecLoss []) (i - 1) = none := by
          rw [rollingMeanO, if_neg (by simp [rsiSpecLoss, diffList])]
        rw [calculate_rsi, rsiSpec, h1, h2, h3, h4]
    | c :: cs =>
        rw [calculate_rsi, rsiSpec, gainSeries_cons, lossSeries_cons,
          rollingMeanO_cons 14 _ _ i (by norm_num) hi,
          rollingMeanO_cons 14 _ _ i (by norm_num) hi]
  · intro g hg hgpos hl
    rw [calculate_rsi, hg, hl]
    simp [pvOf, pvRsi, pdiv, hgpos, padd, psub, pneg]

/-- Witness for the amended C3: agreement at bar 14 of a 15-bar
series, and the loss-zero edge case at bar 13 of the increasing
series. -/
theorem rsi_matches_reference_from_period_witness :
    ((14 : ℕ) ≤ 14 ∧
      calculate_rsi [1, 2, 3, 4, 5, 6, 7, 8, 9, 10, 11, 12, 13, 14, 15] 14 14 =
        rsiSpec [1, 2, 3, 4, 5, 6, 7, 8, 9, 10, 11, 12, 13, 14, 15] 14 14) ∧
    (rollingMeanO 14
        (gainSeries [1, 2, 3, 4, 5, 6, 7, 8, 9, 10, 11, 12, 13, 14]) 13 =
        some (13 / 14) ∧
      (0 : ℚ) < 13 / 14 ∧
      rollingMeanO 14
        (lossSeries [1, 2, 3, 4, 5, 6, 7, 8, 9, 10, 11, 12, 13, 14]) 13 =
        some 0 ∧
      calculate_rsi [1, 2, 3, 4, 5, 6, 7, 8, 9, 10, 11, 12, 13, 14] 14 13 =
        PVal.val 100) :=
  have hg : rollingMeanO 14
      (gainSeries [1, 2, 3, 4, 5, 6, 7, 8, 9, 10, 11, 12, 13, 14]) 13 =
      some (13 / 14) := by
    norm_num [gainSeries, deltaList, gainEntry, rollingMeanO]
  have hl : rollingMeanO 14
      (lossSeries [1, 2, 3, 4, 5, 6, 7, 8, 9, 10, 11, 12, 13, 14]) 13 =
      some 0 := by
    norm_num [lossSeries, deltaList, lossEntry, rollingMeanO]
  ⟨⟨le_refl 14,
    (rsi_matches_reference_from_period
      [1, 2, 3, 4, 5, 6, 7, 8, 9, 10, 11, 12, 13, 14, 15] 14).1 (le_refl 14)⟩,
   ⟨hg, by norm_num,
    hl,
    (rsi_matches_reference_from_period
      [1, 2, 3, 4, 5, 6, 7, 8, 9, 10, 11, 12, 13, 14] 13).2 (13 / 14)
      hg (by norm_num) hl⟩⟩

/-! ### C7 -/

lemma range_drop (n i : ℕ) : (List.range n).drop i = List.range' i (n - i) := by
  apply List.ext_getElem
  · simp
  · intro k h1 h2
    simp

lemma rollingMeanO_warmup_none (w : ℕ) (xs : List ℚ) (i : ℕ) (h : i + 1 < w) :
    rollingMeanO w xs i = none := by
  rw [rollingMeanO, if_neg]
  exact fun hc => absurd hc.1 (by omega)

lemma bfillAt_eq_of_first {α : Type _} (col : ℕ → Option α) (n i k : ℕ) (v : α)
    (hik : i ≤ k) (hk : k < n) (hnone : ∀ j, i ≤ j → j < k → col j = none)
    (hsome : col k = some v) : bfillAt col n i = some v := by
  unfold bfillAt
  rw [range_drop]
  have h1 : i + (k - i) = k := by omega
  have h2 : (n - k) + (k - i) = n - i := by omega
  rw [← h2, ← List.range'_append_1 i (k - i) (n - k), h1, List.findSome?_append]
  have hfirst : (List.range' i (k - i)).findSome? col = none := by
    rw [List.findSome?_eq_none_iff]
    intro j hj
    rw [List.mem_range'_1] at hj
    exact hnone j hj.1 (by omega)
  have hrest : List.range' k (n - k) = k :: List.range' (k + 1) (n - k - 1) := by
    have h3 : n - k = (n - k - 1) + 1 := by omega
    rw [h3, List.range'_succ]
    simp
  rw [hfirst, hrest, List.findSome?_cons, hsome]
  rfl

lemma trueRangeList_length (bars : List Bar) :
    (trueRangeList bars).length = bars.length := by
  cases bars with
  | nil => rfl
  | cons b bs => simp [trueRangeList]

lemma bfill_rolling_warmup (w : ℕ) (xs : List ℚ) (n i : ℕ)
    (hn : n = xs.length) (hlen : w ≤ xs.length) (hw : 1 ≤ w) (hi : i < w - 1) :
    bfillAt (rollingMeanO w xs) n i = rollingMeanO w xs (w - 1) := by
  have hsome : rollingMeanO w xs (w - 1) =
      some ((((xs.drop (w - 1 + 1 - w)).take w).sum) / (w : ℚ)) := by
    rw [rollingMeanO, if_pos ⟨by omega, by omega⟩]
  rw [hsome]
  exact bfillAt_eq_of_first _ n i (w - 1) _ (by omega) (by omega)
    (fun j _ hj => rollingMeanO_warmup_none w xs j (by omega)) hsome

lemma zipWith_replicate_all {α β γ : Type _} (f : α → β → γ) (a : α) (b : β) :
    ∀ n m : ℕ, List.zipWith f (List.replicate n a) (List.replicate m b) =
      List.replicate (min n m) (f a b)
  | 0, m => by simp
  | n + 1, 0 => by simp
  | n + 1, m + 1 => by
      simp only [List.replicate_succ, List.zipWith_cons_cons,
        zipWith_replicate_all f a b n m, Nat.succ_min_succ]

lemma trueRangeList_replicate_unit (n : ℕ) :
    trueRangeList (List.replicate (n + 1) (⟨2, 1, 1⟩ : Bar)) =
      List.replicate (n + 1) (1 : ℚ) := by
  rw [List.replicate_succ, trueRangeList, ← List.replicate_succ,
    zipWith_replicate_all]
  have htr : trueRange3 (⟨2, 1, 1⟩ : Bar) ((⟨2, 1, 1⟩ : Bar)).close = 1 := by
    norm_num [trueRange3]
  rw [htr]
  have hmin : min n (n + 1) = n := by omega
  rw [hmin, List.replicate_succ]
  norm_num

/-- Counterexample to C7 as stated: on a flat 200-bar frame the
attached RSI column holds the substituted default 50 at bar 0 (not
NaN), and the attached ATR column holds the backfilled value 1 at bar
0 (not NaN), although both rolling windows lack history there. -/
theorem warmup_columns_counterexample :
    rsiFilled (List.replicate 200 (1 : ℚ)) 0 = PVal.val 50 ∧
    rsiFilled (List.replicate 200 (1 : ℚ)) 0 ≠ PVal.nan ∧
    atrFilled (List.replicate 200 (⟨2, 1, 1⟩ : Bar)) 0 = some 1 ∧
    atrFilled (List.replicate 200 (⟨2, 1, 1⟩ : Bar)) 0 ≠ none := by
  have hrsi : rsiFilled (List.replicate 200 (1 : ℚ)) 0 = PVal.val 50 := by
    rw [rsiFilled, calculate_rsi,
      rollingMeanO_warmup_none 14 _ 0 (by omega),
      rollingMeanO_warmup_none 14 _ 0 (by omega)]
    rfl
  have hatr : atrFilled (List.replicate 200 (⟨2, 1, 1⟩ : Bar)) 0 = some 1 := by
    have hsome : calculate_atr (List.replicate 200 (⟨2, 1, 1⟩ : Bar)) 14 13 =
        some 1 := by
      rw [calculate_atr]
      have h200 : (200 : ℕ) = 199 + 1 := by norm_num
      rw [h200, trueRangeList_replicate_unit 199, rollingMeanO,
        if_pos ⟨by norm_num, by simp only [List.length_replicate]; norm_num⟩]
      rw [List.drop_replicate, List.take_replicate]
      norm_num [List.sum_replicate]
    rw [atrFilled]
    exact bfillAt_eq_of_first _ _ 0 13 1 (by omega)
      (by simp only [List.length_replicate]; norm_num)
      (fun j _ hj => rollingMeanO_warmup_none 14 _ j (by omega)) hsome
  refine ⟨hrsi, by rw [hrsi]; exact fun h => PVal.noConfusion h, hatr,
    by rw [hatr]; exact fun h => Option.noConfusion h⟩

/-- C7 amended: the raw rolling computations are indeed undefined at
the first `period - 1` bars, but the attached columns do not keep NaN
there: the RSI column substitutes the default 50, and the ATR, moving
average and Bollinger Band columns backfill the first defined rolling
value (bar `period - 1`) over the whole warm-up region. -/
theorem warmup_columns_hold_filled_values :
    (∀ (w : ℕ) (xs : List ℚ) (i : ℕ), i + 1 < w → rollingMeanO w xs i = none) ∧
    (∀ (closes : List ℚ) (i : ℕ), i < 13 → rsiFilled closes i = PVal.val 50) ∧
    (∀ (bars : List Bar) (i : ℕ), 14 ≤ bars.length → i < 13 →
      atrFilled bars i = calculate_atr bars 14 13) ∧
    (∀ (closes : List ℚ) (i : ℕ), 50 ≤ closes.length → i < 49 →
      ma50Filled closes i = rollingMeanO 50 closes 49) ∧
    (∀ (closes : List ℚ) (i : ℕ), 200 ≤ closes.length → i < 199 →
      ma200Filled closes i = rollingMeanO 200 closes 199) ∧
    (∀ (closes : List ℚ) (i : ℕ), 20 ≤ closes.length → i < 19 →
      upperBBFilled closes i = upperBBCol closes 19 ∧
        lowerBBFilled closes i = lowerBBCol closes 19) := by
  refine ⟨rollingMeanO_warmup_none, ?_, ?_, ?_, ?_, ?_⟩
  · intro closes i hi
    rw [rsiFilled, calculate_rsi,
      rollingMeanO_warmup_none 14 _ i (by omega),
      rollingMeanO_warmup_none 14 _ i (by omega)]
    rfl
  · intro bars i hlen hi
    rw [atrFilled, calculate_atr]
    have hl := trueRangeList_length bars
    rw [show bars.length = (trueRangeList bars).length from hl.symm] at hlen ⊢
    exact bfill_rolling_warmup 14 _ _ i rfl hlen (by norm_num) (by omega)
  · intro closes i hlen hi
    exact bfill_rolling_warmup 50 closes _ i rfl hlen (by norm_num) (by omega)
  · intro closes i hlen hi
    exact bfill_rolling_warmup 200 closes _ i rfl hlen (by norm_num) (by omega)
  · intro closes i hlen hi
    have hm : rollingMeanO 20 closes 19 =
        some ((((closes.drop (19 + 1 - 20)).take 20).sum) / (20 : ℚ)) := by
      rw [rollingMeanO, if_pos ⟨by omega, by omega⟩]; norm_num
    have hnone : ∀ j, i ≤ j → j < 19 → upperBBCol closes j = none := by
      intro j _ hj
      rw [upperBBCol, rollingMeanO_warmup_none 20 closes j (by omega)]
      rfl
    have hnoneL : ∀ j, i ≤ j → j < 19 → lowerBBCol closes j = none := by
      intro j _ hj
      rw [lowerBBCol, rollingMeanO_warmup_none 20 closes j (by omega)]
      rfl
    have hsU : ∃ u, upperBBCol closes 19 = some u := by
      rw [upperBBCol, hm, rollingStd, hm]
      exact ⟨_, rfl⟩
    have hsL : ∃ l, lowerBBCol closes 19 = some l := by
      rw [lowerBBCol, hm, rollingStd, hm]
      exact ⟨_, rfl⟩
    obtain ⟨u, hu⟩ := hsU
    obtain ⟨l, hl⟩ := hsL
    constructor
    · rw [upperBBFilled, hu]
      exact bfillAt_eq_of_first _ _ i 19 u (by omega) (by omega) hnone hu
    · rw [lowerBBFilled, hl]
      exact bfillAt_eq_of_first _ _ i 19 l (by omega) (by omega) hnoneL hl

/-- Witness for the amended C7 at concrete inputs: the raw rolling mean
is undefined at bar 0, while the filled RSI column already holds 50
there, and on a 14-bar flat frame the filled ATR column at bar 0 holds
the value of bar 13. -/
theorem warmup_columns_hold_filled_values_witness :
    (0 + 1 < 14 ∧ rollingMeanO 14 [] 0 = none) ∧
    (0 < 13 ∧ rsiFilled [] 0 = PVal.val 50) ∧
    (14 ≤ (List.replicate 14 (⟨2, 1, 1⟩ : Bar)).length ∧ 0 < 13 ∧
      atrFilled (List.replicate 14 (⟨2, 1, 1⟩ : Bar)) 0 =
        calculate_atr (List.replicate 14 (⟨2, 1, 1⟩ : Bar)) 14 13) :=
  ⟨⟨by norm_num, warmup_columns_hold_filled_values.1 14 [] 0 (by norm_num)⟩,
   ⟨by norm_num, warmup_columns_hold_filled_values.2.1 [] 0 (by norm_num)⟩,
   ⟨by simp, by norm_num,
    warmup_columns_hold_filled_values.2.2.1 (List.replicate 14 (⟨2, 1, 1⟩ : Bar))
      0 (by simp) (by norm_num)⟩⟩

/-! ### C5 -/

/-- C5: wherever both raw Bollinger Band entries are defined the upper
band is at least the lower band, and on a constant-close series both
bands equal the close at every defined index (the rolling standard
deviation is 0 there). -/
theorem bollinger_upper_ge_lower_flat_zero (closes : List ℚ) (i : ℕ) :
    (∀ u l : ℝ, upperBBCol closes i = some u → lowerBBCol closes i = some l →
      l ≤ u) ∧
    (∀ (n : ℕ) (c : ℚ), closes = List.replicate n c → 19 ≤ i → i < n →
      upperBBCol closes i = some ((c : ℚ) : ℝ) ∧
        lowerBBCol closes i = some ((c : ℚ) : ℝ)) := by
  constructor
  · intro u l hu hl
    unfold upperBBCol at hu
    unfold lowerBBCol at hl
    cases hm : rollingMeanO 20 closes i with
    | none => rw [hm] at hu; simp at hu
    | some m =>
        rw [hm] at hu hl
        cases hs : rollingStd 20 closes i with
        | none => rw [hs] at hu; simp at hu
        | some s =>
            rw [hs] at hu hl
            simp only [Option.some_bind, Option.map_some', Option.some.injEq] at hu hl
            have hs0 : 0 ≤ s := by
              unfold rollingStd at hs
              rw [hm] at hs
              simp only [Option.map_some', Option.some.injEq] at hs
              rw [← hs]
              exact Real.sqrt_nonneg _
            rw [← hu, ← hl]
            linarith
  · rintro n c rfl h19 hn
    have hcond : 20 ≤ i + 1 ∧ i < (List.replicate n c).length :=
      ⟨by omega, by simpa using hn⟩
    have hmin : min 20 (n - (i + 1 - 20)) = 20 := by omega
    have hm : rollingMeanO 20 (List.replicate n c) i = some c := by
      rw [rollingMeanO, if_pos hcond]
      congr 1
      rw [List.drop_replicate, List.take_replicate, hmin, List.sum_replicate,
        nsmul_eq_mul]
      norm_num
    have hstd : rollingStd 20 (List.replicate n c) i = some 0 := by
      unfold rollingStd
      rw [hm]
      simp only [Option.map_some', Option.some.injEq]
      rw [List.drop_replicate, List.take_replicate, hmin, List.map_replicate]
      norm_num [List.sum_replicate]
    constructor
    · unfold upperBBCol
      rw [hm, hstd]
      norm_num
    · unfold lowerBBCol
      rw [hm, hstd]
      norm_num

/-- Witness for C5 on the flat 20-bar series of close 5: both bands
equal 5 at bar 19 and the upper band is at least the lower band. -/
theorem bollinger_upper_ge_lower_flat_zero_witness :
    (upperBBCol (List.replicate 20 (5 : ℚ)) 19 = some ((5 : ℚ) : ℝ) ∧
      lowerBBCol (List.replicate 20 (5 : ℚ)) 19 = some ((5 : ℚ) : ℝ)) ∧
    (((5 : ℚ) : ℝ) ≤ ((5 : ℚ) : ℝ)) :=
  have h2 := (bollinger_upper_ge_lower_flat_zero (List.replicate 20 (5 : ℚ)) 19).2
    20 5 rfl (le_refl 19) (by norm_num)
  ⟨h2, (bollinger_upper_ge_lower_flat_zero (List.replicate 20 (5 : ℚ)) 19).1
    _ _ h2.1 h2.2⟩

/-! ### C8 and C9 -/

/-- The RSI of a window at decision time: the RSI column entry of the
last row (NaN for an empty window). -/
def lastRsi (w : List RangeRow) : PVal :=
  match w.getLast? with
  | some r => r.rsi
  | none => .nan

/-- Following the wording of the specification (section 4.3): the RSI
oscillator signals oversold when the decision-time RSI is below the
default threshold 30. -/
def specOversoldRSI (w : List RangeRow) : Prop :=
  ∃ q : ℚ, lastRsi w = PVal.val q ∧ q < 30

/-- Following the wording of the specification (section 4.3): the RSI
oscillator signals overbought when the decision-time RSI is above the
default threshold 70. -/
def specOverboughtRSI (w : List RangeRow) : Prop :=
  ∃ q : ℚ, lastRsi w = PVal.val q ∧ 70 < q

lemma roundR2_intCast (z : ℤ) : roundR2 ((z : ℤ) : ℝ) = ((z : ℤ) : ℝ) := by
  unfold roundR2
  have h : ((z : ℝ) * 100) = (((z * 100 : ℤ)) : ℝ) := by push_cast; ring
  rw [h, round_intCast]
  push_cast
  ring

lemma prMean_single (x : ℝ) : prMean [some x] = some x := by
  unfold prMean
  norm_num [List.filterMap]

lemma calculate_ranges_cons (r : RangeRow) (rs : List RangeRow) :
    calculate_ranges (r :: rs) =
      (some (prRound2 (prSub (prMean ((r :: rs).map RangeRow.lower_bb))
               (prMean ((r :: rs).map RangeRow.atr))),
             prRound2 (prAdd (prMean ((r :: rs).map RangeRow.lower_bb))
               (prMean ((r :: rs).map RangeRow.atr)))),
       some (prRound2 (prSub (prMean ((r :: rs).map RangeRow.upper_bb))
               (prMean ((r :: rs).map RangeRow.atr))),
             prRound2 (prAdd (prMean ((r :: rs).map RangeRow.upper_bb))
               (prMean ((r :: rs).map RangeRow.atr)))),
       some (prRound2 (prSub (prMean ((r :: rs).map RangeRow.lower_bb))
               (prScale 2 (prMean ((r :: rs).map RangeRow.atr)))))) := rfl

/-- Counterexample to C8 as stated: on a one-row window whose RSI is
the neutral 50 (neither oversold nor overbought) the script still
computes the buy range from the Lower_BB mean (here the interval from
88 to 92 around 90) and the sell range from the Upper_BB mean; the
buy is neither unavailable nor the last close 100. -/
theorem buy_range_not_gated_counterexample :
    (calculate_ranges [⟨some 90, some 110, some 2, .val 50, 100⟩]).1 =
      some (some 88, some 92) ∧
    ¬ specOversoldRSI [⟨some 90, some 110, some 2, .val 50, 100⟩] ∧
    ¬ specOverboughtRSI [⟨some 90, some 110, some 2, .val 50, 100⟩] ∧
    (calculate_ranges [⟨some 90, some 110, some 2, .val 50, 100⟩]).2.1 =
      some (some 108, some 112) ∧
    (⟨some 90, some 110, some 2, .val 50, 100⟩ : RangeRow).close = 100 ∧
    (88 : ℝ) ≠ 100 ∧ (92 : ℝ) ≠ 100 := by
  have h88 : prRound2 (prSub (some (90 : ℝ)) (some (2 : ℝ))) = some 88 := by
    norm_num [prRound2, prSub, roundR2]
  have h92 : prRound2 (prAdd (some (90 : ℝ)) (some (2 : ℝ))) = some 92 := by
    norm_num [prRound2, prAdd, roundR2]
  have h108 : prRound2 (prSub (some (110 : ℝ)) (some (2 : ℝ))) = some 108 := by
    norm_num [prRound2, prSub, roundR2]
  have h112 : prRound2 (prAdd (some (110 : ℝ)) (some (2 : ℝ))) = some 112 := by
    norm_num [prRound2, prAdd, roundR2]
  refine ⟨?_, ?_, ?_, ?_, rfl, by norm_num, by norm_num⟩
  · rw [calculate_ranges_cons]
    simp only [List.map_cons, List.map_nil, prMean_single]
    rw [h88, h92]
  · rintro ⟨q, hq, hlt⟩
    have : q = 50 := by
      have h50 : lastRsi [⟨some 90, some 110, some 2, .val 50, 100⟩] =
          PVal.val 50 := rfl
      rw [h50] at hq
      exact (PVal.val.injEq _ _ ▸ hq.symm)
    rw [this] at hlt
    norm_num at hlt
  · rintro ⟨q, hq, hlt⟩
    have : q = 50 := by
      have h50 : lastRsi [⟨some 90, some 110, some 2, .val 50, 100⟩] =
          PVal.val 50 := rfl
      rw [h50] at hq
      exact (PVal.val.injEq _ _ ▸ hq.symm)
    rw [this] at hlt
    norm_num at hlt
  · rw [calculate_ranges_cons]
    simp only [List.map_cons, List.map_nil, prMean_single]
    rw [h108, h112]

/-- C8 amended: `calculate_ranges` applies no oscillator gating at all:
for every non-empty window the buy range is the rounded interval of
plus or minus the window ATR mean around the Lower_BB window mean, and
the sell range is the same interval around the Upper_BB window mean,
regardless of any oversold or overbought state; levels are unavailable
only for an empty window. -/
theorem buy_sell_ranges_ungated (w : List RangeRow) :
    (w = [] → calculate_ranges w = (none, none, none)) ∧
    (w ≠ [] →
      (calculate_ranges w).1 =
        some (prRound2 (prSub (prMean (w.map RangeRow.lower_bb))
                (prMean (w.map RangeRow.atr))),
              prRound2 (prAdd (prMean (w.map RangeRow.lower_bb))
                (prMean (w.map RangeRow.atr)))) ∧
      (calculate_ranges w).2.1 =
        some (prRound2 (prSub (prMean (w.map RangeRow.upper_bb))
                (prMean (w.map RangeRow.atr))),
              prRound2 (prAdd (prMean (w.map RangeRow.upper_bb))
                (prMean (w.map RangeRow.atr))))) := by
  constructor
  · rintro rfl; rfl
  · intro hw
    match w with
    | [] => exact absurd rfl hw
    | r :: rs => rw [calculate_ranges_cons]; exact ⟨rfl, rfl⟩

/-- Witness for the amended C8 on a concrete one-row window. -/
theorem buy_sell_ranges_ungated_witness :
    (([⟨some 90, some 110, some 2, PVal.val 50, 100⟩] : List RangeRow) ≠ []) ∧
    (calculate_ranges [⟨some 90, some 110, some 2, PVal.val 50, 100⟩]).1 =
      some (prRound2 (prSub
              (prMean ([⟨some 90, some 110, some 2, PVal.val 50, 100⟩].map
                RangeRow.lower_bb))
              (prMean ([⟨some 90, some 110, some 2, PVal.val 50, 100⟩].map
                RangeRow.atr))),
            prRound2 (prAdd
              (prMean ([⟨some 90, some 110, some 2, PVal.val 50, 100⟩].map
                RangeRow.lower_bb))
              (prMean ([⟨some 90, some 110, some 2, PVal.val 50, 100⟩].map
                RangeRow.atr)))) :=
  ⟨List.cons_ne_nil _ _,
   ((buy_sell_ranges_ungated [⟨some 90, some 110, some 2, PVal.val 50, 100⟩]).2
      (List.cons_ne_nil _ _)).1⟩

/-- Counterexample to C9 as stated: on a one-row window with Lower_BB
mean 95 and ATR mean 3 the stop loss is 89, which is the Lower_BB mean
minus twice the ATR mean: no multiplier k between 1.0 and 1.5 produces
it, and neither does the percentage mode with the default 3 percent. -/
theorem stop_loss_multiplier_counterexample :
    (calculate_ranges [⟨some 95, some 105, some 3, .val 50, 100⟩]).2.2 =
      some (some 89) ∧
    prMean ([⟨some 95, some 105, some 3, .val 50, 100⟩].map RangeRow.lower_bb) =
      some 95 ∧
    prMean ([⟨some 95, some 105, some 3, .val 50, 100⟩].map RangeRow.atr) =
      some 3 ∧
    (∀ k : ℝ, 1 ≤ k → k ≤ 3 / 2 → (89 : ℝ) ≠ 95 - k * 3) ∧
    (89 : ℝ) ≠ 95 * (1 - 3 / 100) := by
  have h89 : prRound2 (prSub (some (95 : ℝ)) (prScale 2 (some (3 : ℝ)))) =
      some 89 := by
    have hs : prScale 2 (some (3 : ℝ)) = some (6 : ℝ) := by
      rw [prScale]; norm_num
    rw [hs]
    norm_num [prRound2, prSub, roundR2]
  refine ⟨?_, ?_, ?_, ?_, by norm_num⟩
  · rw [calculate_ranges_cons]
    simp only [List.map_cons, List.map_nil, prMean_single]
    rw [h89]
  · simp only [List.map_cons, List.map_nil, prMean_single]
  · simp only [List.map_cons, List.map_nil, prMean_single]
  · intro k h1 h2
    nlinarith

/-- C9 amended: the stop loss of `calculate_ranges` is the rounded
value of the Lower_BB window mean minus exactly twice the ATR window
mean (the multiplier is fixed at 2, not configurable), and the stop
loss is unavailable whenever the buy level is unavailable (both happen
exactly for the empty window). -/
theorem stop_loss_twice_atr (w : List RangeRow) :
    (w ≠ [] → (calculate_ranges w).2.2 =
      some (prRound2 (prSub (prMean (w.map RangeRow.lower_bb))
        (prScale 2 (prMean (w.map RangeRow.atr)))))) ∧
    ((calculate_ranges w).1 = none → (calculate_ranges w).2.2 = none) := by
  constructor
  · intro hw
    match w with
    | [] => exact absurd rfl hw
    | r :: rs => rw [calculate_ranges_cons]
  · intro hbuy
    match w with
    | [] => rfl
    | r :: rs =>
        rw [calculate_ranges_cons] at hbuy
        exact absurd hbuy (by simp)

/-- Witness for the amended C9 on a concrete one-row window. -/
theorem stop_loss_twice_atr_witness :
    (([⟨some 95, some 105, some 3, PVal.val 50, 100⟩] : List RangeRow) ≠ []) ∧
    (calculate_ranges [⟨some 95, some 105, some 3, PVal.val 50, 100⟩]).2.2 =
      some (prRound2 (prSub
        (prMean ([⟨some 95, some 105, some 3, PVal.val 50, 100⟩].map
          RangeRow.lower_bb))
        (prScale 2 (prMean ([⟨some 95, some 105, some 3, PVal.val 50, 100⟩].map
          RangeRow.atr))))) :=
  ⟨List.cons_ne_nil _ _,
   (stop_loss_twice_atr [⟨some 95, some 105, some 3, PVal.val 50, 100⟩]).1
     (List.cons_ne_nil _ _)⟩

/-! ### C10 -/

lemma calculate_ranges_of_ne_nil (w : List RangeRow) (hw : w ≠ []) :
    calculate_ranges w =
      (some (prRound2 (prSub (prMean (w.map RangeRow.lower_bb))
               (prMean (w.map RangeRow.atr))),
             prRound2 (prAdd (prMean (w.map RangeRow.lower_bb))
               (prMean (w.map RangeRow.atr)))),
       some (prRound2 (prSub (prMean (w.map RangeRow.upper_bb))
               (prMean (w.map RangeRow.atr))),
             prRound2 (prAdd (prMean (w.map RangeRow.upper_bb))
               (prMean (w.map RangeRow.atr)))),
       some (prRound2 (prSub (prMean (w.map RangeRow.lower_bb))
               (prScale 2 (prMean (w.map RangeRow.atr)))))) := by
  obtain ⟨r, rs, rfl⟩ := List.exists_cons_of_ne_nil hw
  exact calculate_ranges_cons r rs

lemma windowRows_length (d : RawData) (k : ℕ) (hkn : k ≤ d.bars.length) :
    (windowRows d k).length = k := by
  unfold windowRows
  rw [List.length_map, List.length_drop, List.length_range]
  omega

lemma windowRows_ne_nil (d : RawData) (k : ℕ) (hk : 1 ≤ k)
    (hkn : k ≤ d.bars.length) : windowRows d k ≠ [] := by
  intro h
  have := windowRows_length d k hkn
  rw [h] at this
  simp at this
  omega

lemma ewmList_length (s : ℕ) (xs : List ℚ) : (ewmList s xs).length = xs.length := by
  cases xs with
  | nil => rfl
  | cons x rest => simp [ewmList, List.length_scanl]

lemma macd_line_length (closes : List ℚ) :
    (calculate_macd closes).1.length = closes.length := by
  simp [calculate_macd, List.length_zipWith, ewmList_length]

lemma closesOf_length (d : RawData) : (closesOf d).length = d.bars.length := by
  simp [closesOf]

/-- C10: when the analysis succeeds (at least 200 bars, all columns
present) the three tail windows of the last 1, 5 and 20 rows are
non-empty, so the empty-window branch of `calculate_ranges` is
unreachable, and the returned record carries every field defined: the
buy and sell ranges are the rounded two-sided intervals of width twice
the window ATR mean around the Lower_BB and Upper_BB window means, the
stop loss is the rounded Lower_BB mean minus twice the ATR mean, and
the last RSI, MACD, signal and ATR values are present. -/
theorem success_record_shape (t : String) (d : RawData)
    (h200 : 200 ≤ d.bars.length) (hc : d.hasClose = true)
    (hh : d.hasHigh = true) (hl : d.hasLow = true) :
    windowRows d 1 ≠ [] ∧ windowRows d 5 ≠ [] ∧ windowRows d 20 ≠ [] ∧
    ∃ r : AnalysisRecord,
      fetch_and_analyze_data t (.ok d) = .ok r ∧
      r.ticker = t ∧
      r.dailyBuy = some (prRound2 (prSub
          (prMean ((windowRows d 1).map RangeRow.lower_bb))
          (prMean ((windowRows d 1).map RangeRow.atr))),
        prRound2 (prAdd (prMean ((windowRows d 1).map RangeRow.lower_bb))
          (prMean ((windowRows d 1).map RangeRow.atr)))) ∧
      r.dailySell = some (prRound2 (prSub
          (prMean ((windowRows d 1).map RangeRow.upper_bb))
          (prMean ((windowRows d 1).map RangeRow.atr))),
        prRound2 (prAdd (prMean ((windowRows d 1).map RangeRow.upper_bb))
          (prMean ((windowRows d 1).map RangeRow.atr)))) ∧
      r.dailyStop = some (prRound2 (prSub
          (prMean ((windowRows d 1).map RangeRow.lower_bb))
          (prScale 2 (prMean ((windowRows d 1).map RangeRow.atr))))) ∧
      r.weeklyBuy = some (prRound2 (prSub
          (prMean ((windowRows d 5).map RangeRow.lower_bb))
          (prMean ((windowRows d 5).map RangeRow.atr))),
        prRound2 (prAdd (prMean ((windowRows d 5).map RangeRow.lower_bb))
          (prMean ((windowRows d 5).map RangeRow.atr)))) ∧
      r.weeklySell = some (prRound2 (prSub
          (prMean ((windowRows d 5).map RangeRow.upper_bb))
          (prMean ((windowRows d 5).map RangeRow.atr))),
        prRound2 (prAdd (prMean ((windowRows d 5).map RangeRow.upper_bb))
          (prMean ((windowRows d 5).map RangeRow.atr)))) ∧
      r.weeklyStop = some (prRound2 (prSub
          (prMean ((windowRows d 5).map RangeRow.lower_bb))
          (prScale 2 (prMean ((windowRows d 5).map RangeRow.atr))))) ∧
      r.monthlyBuy = some (prRound2 (prSub
          (prMean ((windowRows d 20).map RangeRow.lower_bb))
          (prMean ((windowRows d 20).map RangeRow.atr))),
        prRound2 (prAdd (prMean ((windowRows d 20).map RangeRow.lower_bb))
          (prMean ((windowRows d 20).map RangeRow.atr)))) ∧
      r.monthlySell = some (prRound2 (prSub
          (prMean ((windowRows d 20).map RangeRow.upper_bb))
          (prMean ((windowRows d 20).map RangeRow.atr))),
        prRound2 (prAdd (prMean ((windowRows d 20).map RangeRow.upper_bb))
          (prMean ((windowRows d 20).map RangeRow.atr)))) ∧
      r.monthlyStop = some (prRound2 (prSub
          (prMean ((windowRows d 20).map RangeRow.lower_bb))
          (prScale 2 (prMean ((windowRows d 20).map RangeRow.atr))))) ∧
      r.rsiLast ≠ PVal.nan ∧
      r.macdLast ≠ none ∧ r.signalLast ≠ none ∧ r.atrLast ≠ none := by
  have hne1 : windowRows d 1 ≠ [] := windowRows_ne_nil d 1 (by norm_num) (by omega)
  have hne5 : windowRows d 5 ≠ [] := windowRows_ne_nil d 5 (by norm_num) (by omega)
  have hne20 : windowRows d 20 ≠ [] :=
    windowRows_ne_nil d 20 (by norm_num) (by omega)
  refine ⟨hne1, hne5, hne20, ?_⟩
  have hnot : ¬ (d.bars.length < 200) := by omega
  have hcond : (d.hasClose && d.hasHigh && d.hasLow) = true := by
    rw [hc, hh, hl]; rfl
  have hr1 := calculate_ranges_of_ne_nil _ hne1
  have hr5 := calculate_ranges_of_ne_nil _ hne5
  have hr20 := calculate_ranges_of_ne_nil _ hne20
  have hrsi : ∃ q : ℚ,
      pvRound2 (rsiFilled (closesOf d) (d.bars.length - 1)) =
        PVal.val (round2Q q) := by
    obtain ⟨q, hq, -, -⟩ := rsiFilled_bounds (closesOf d) (d.bars.length - 1)
    exact ⟨q, by rw [hq]; rfl⟩
  obtain ⟨qr, hqr⟩ := hrsi
  have hmacdne : (calculate_macd (closesOf d)).1 ≠ [] := by
    intro h
    have := macd_line_length (closesOf d)
    rw [h, closesOf_length] at this
    simp at this
    omega
  have hsigne : (calculate_macd (closesOf d)).2 ≠ [] := by
    intro h
    have hlen : (calculate_macd (closesOf d)).2.length =
        (calculate_macd (closesOf d)).1.length := by
      simp [calculate_macd, ewmList_length]
    rw [h, macd_line_length, closesOf_length] at hlen
    simp at hlen
    omega
  obtain ⟨vm, hvm⟩ := Option.isSome_iff_exists.1
    (List.getLast?_isSome.2 hmacdne)
  obtain ⟨vs, hvs⟩ := Option.isSome_iff_exists.1
    (List.getLast?_isSome.2 hsigne)
  have hatr : ∃ v, atrFilled d.bars (d.bars.length - 1) = some v := by
    have hsome : calculate_atr d.bars 14 (d.bars.length - 1) =
        some ((((trueRangeList d.bars).drop (d.bars.length - 1 + 1 - 14)).take
          14).sum / (14 : ℚ)) := by
      rw [calculate_atr, rollingMeanO,
        if_pos ⟨by omega, by rw [trueRangeList_length]; omega⟩]
      norm_num
    refine ⟨(((trueRangeList d.bars).drop (d.bars.length - 1 + 1 - 14)).take
      14).sum / (14 : ℚ), ?_⟩
    rw [atrFilled]
    exact bfillAt_eq_of_first _ _ _ (d.bars.length - 1) _ (le_refl _) (by omega)
      (fun j hj1 hj2 => absurd (lt_of_le_of_lt hj1 hj2) (lt_irrefl _)) hsome
  obtain ⟨va, hva⟩ := hatr
  simp only [fetch_and_analyze_data]
  rw [if_neg hnot, if_pos hcond]
  refine ⟨_, rfl, rfl, ?_, ?_, ?_, ?_, ?_, ?_, ?_, ?_, ?_, ?_, ?_, ?_, ?_⟩
  · show (calculate_ranges (windowRows d 1)).1 = _
    rw [hr1]
  · show (calculate_ranges (windowRows d 1)).2.1 = _
    rw [hr1]
  · show (calculate_ranges (windowRows d 1)).2.2 = _
    rw [hr1]
  · show (calculate_ranges (windowRows d 5)).1 = _
    rw [hr5]
  · show (calculate_ranges (windowRows d 5)).2.1 = _
    rw [hr5]
  · show (calculate_ranges (windowRows d 5)).2.2 = _
    rw [hr5]
  · show (calculate_ranges (windowRows d 20)).1 = _
    rw [hr20]
  · show (calculate_ranges (windowRows d 20)).2.1 = _
    rw [hr20]
  · show (calculate_ranges (windowRows d 20)).2.2 = _
    rw [hr20]
  · show pvRound2 (rsiFilled (closesOf d) (d.bars.length - 1)) ≠ PVal.nan
    rw [hqr]
    exact fun h => PVal.noConfusion h
  · show ((calculate_macd (closesOf d)).1.getLast?).map round2Q ≠ none
    rw [hvm]
    exact fun h => Option.noConfusion h
  · show ((calculate_macd (closesOf d)).2.getLast?).map round2Q ≠ none
    rw [hvs]
    exact fun h => Option.noConfusion h
  · show (atrFilled d.bars (d.bars.length - 1)).map round2Q ≠ none
    rw [hva]
    exact fun h => Option.noConfusion h

/-- Witness for C10 on a concrete flat 200-bar frame with all columns
present. -/
theorem success_record_shape_witness :
    (200 ≤ (RawData.mk (List.replicate 200 ⟨2, 1, 1⟩) true true true).bars.length ∧
      (RawData.mk (List.replicate 200 ⟨2, 1, 1⟩) true true true).hasClose = true) ∧
    (windowRows (RawData.mk (List.replicate 200 ⟨2, 1, 1⟩) true true true) 1 ≠ [] ∧
      windowRows (RawData.mk (List.replicate 200 ⟨2, 1, 1⟩) true true true) 5 ≠ [] ∧
      windowRows (RawData.mk (List.replicate 200 ⟨2, 1, 1⟩) true true true) 20 ≠ [] ∧
      ∃ r : AnalysisRecord,
        fetch_and_analyze_data "TCS.NS"
          (.ok (RawData.mk (List.replicate 200 ⟨2, 1, 1⟩) true true true)) = .ok r ∧
        r.ticker = "TCS.NS" ∧
        r.dailyBuy = some (prRound2 (prSub
            (prMean ((windowRows (RawData.mk (List.replicate 200 ⟨2, 1, 1⟩)
              true true true) 1).map RangeRow.lower_bb))
            (prMean ((windowRows (RawData.mk (List.replicate 200 ⟨2, 1, 1⟩)
              true true true) 1).map RangeRow.atr))),
          prRound2 (prAdd
            (prMean ((windowRows (RawData.mk (List.replicate 200 ⟨2, 1, 1⟩)
              true true true) 1).map RangeRow.lower_bb))
            (prMean ((windowRows (RawData.mk (List.replicate 200 ⟨2, 1, 1⟩)
              true true true) 1).map RangeRow.atr)))) ∧
        r.dailySell = some (prRound2 (prSub
            (prMean ((windowRows (RawData.mk (List.replicate 200 ⟨2, 1, 1⟩)
              true true true) 1).map RangeRow.upper_bb))
            (prMean ((windowRows (RawData.mk (List.replicate 200 ⟨2, 1, 1⟩)
              true true true) 1).map RangeRow.atr))),
          prRound2 (prAdd
            (prMean ((windowRows (RawData.mk (List.replicate 200 ⟨2, 1, 1⟩)
              true true true) 1).map RangeRow.upper_bb))
            (prMean ((windowRows (RawData.mk (List.replicate 200 ⟨2, 1, 1⟩)
              true true true) 1).map RangeRow.atr)))) ∧
        r.dailyStop = some (prRound2 (prSub
            (prMean ((windowRows (RawData.mk (List.replicate 200 ⟨2, 1, 1⟩)
              true true true) 1).map RangeRow.lower_bb))
            (prScale 2 (prMean ((windowRows (RawData.mk
              (List.replicate 200 ⟨2, 1, 1⟩) true true true) 1).map
              RangeRow.atr))))) ∧
        r.weeklyBuy = some (prRound2 (prSub
            (prMean ((windowRows (RawData.mk (List.replicate 200 ⟨2, 1, 1⟩)
              true true true) 5).map RangeRow.lower_bb))
            (prMean ((windowRows (RawData.mk (List.replicate 200 ⟨2, 1, 1⟩)
              true true true) 5).map RangeRow.atr))),
          prRound2 (prAdd
            (prMean ((windowRows (RawData.mk (List.replicate 200 ⟨2, 1, 1⟩)
              true true true) 5).map RangeRow.lower_bb))
            (prMean ((windowRows (RawData.mk (List.replicate 200 ⟨2, 1, 1⟩)
              true true true) 5).map RangeRow.atr)))) ∧
        r.weeklySell = some (prRound2 (prSub
            (prMean ((windowRows (RawData.mk (List.replicate 200 ⟨2, 1, 1⟩)
              true true true) 5).map RangeRow.upper_bb))
            (prMean ((windowRows (RawData.mk (List.replicate 200 ⟨2, 1, 1⟩)
              true true true) 5).map RangeRow.atr))),
          prRound2 (prAdd
            (prMean ((windowRows (RawData.mk (List.replicate 200 ⟨2, 1, 1⟩)
              true true true) 5).map RangeRow.upper_bb))
            (prMean ((windowRows (RawData.mk (List.replicate 200 ⟨2, 1, 1⟩)
              true true true) 5).map RangeRow.atr)))) ∧
        r.weeklyStop = some (prRound2 (prSub
            (prMean ((windowRows (RawData.mk (List.replicate 200 ⟨2, 1, 1⟩)
              true true true) 5).map RangeRow.lower_bb))
            (prScale 2 (prMean ((windowRows (RawData.mk
              (List.replicate 200 ⟨2, 1, 1⟩) true true true) 5).map
              RangeRow.atr))))) ∧
        r.monthlyBuy = some (prRound2 (prSub
            (prMean ((windowRows (RawData.mk (List.replicate 200 ⟨2, 1, 1⟩)
              true true true) 20).map RangeRow.lower_bb))
            (prMean ((windowRows (RawData.mk (List.replicate 200 ⟨2, 1, 1⟩)
              true true true) 20).map RangeRow.atr))),
          prRound2 (prAdd
            (prMean ((windowRows (RawData.mk (List.replicate 200 ⟨2, 1, 1⟩)
              true true true) 20).map RangeRow.lower_bb))
            (prMean ((windowRows (RawData.mk (List.replicate 200 ⟨2, 1, 1⟩)
              true true true) 20).map RangeRow.atr)))) ∧
        r.monthlySell = some (prRound2 (prSub
            (prMean ((windowRows (RawData.mk (List.replicate 200 ⟨2, 1, 1⟩)
              true true true) 20).map RangeRow.upper_bb))
            (prMean ((windowRows (RawData.mk (List.replicate 200 ⟨2, 1, 1⟩)
              true true true) 20).map RangeRow.atr))),
          prRound2 (prAdd
            (prMean ((windowRows (RawData.mk (List.replicate 200 ⟨2, 1, 1⟩)
              true true true) 20).map RangeRow.upper_bb))
            (prMean ((windowRows (RawData.mk (List.replicate 200 ⟨2, 1, 1⟩)
              true true true) 20).map RangeRow.atr)))) ∧
        r.monthlyStop = some (prRound2 (prSub
            (prMean ((windowRows (RawData.mk (List.replicate 200 ⟨2, 1, 1⟩)
              true true true) 20).map RangeRow.lower_bb))
            (prScale 2 (prMean ((windowRows (RawData.mk
              (List.replicate 200 ⟨2, 1, 1⟩) true true true) 20).map
              RangeRow.atr))))) ∧
        r.rsiLast ≠ PVal.nan ∧
        r.macdLast ≠ none ∧ r.signalLast ≠ none ∧ r.atrLast ≠ none) :=
  ⟨⟨by simp only [List.length_replicate]; omega, rfl⟩,
   success_record_shape "TCS.NS"
     (RawData.mk (List.replicate 200 ⟨2, 1, 1⟩) true true true)
     (by simp only [List.length_replicate]; omega) rfl rfl rfl⟩

/-! ### C6 -/

lemma trueRange_zip_nonneg :
    ∀ (l1 l2 : List Bar), (∀ b ∈ l1, b.low ≤ b.high) →
      ∀ x ∈ List.zipWith (fun cur prev => trueRange3 cur prev.close) l1 l2, 0 ≤ x := by
  intro l1
  induction l1 with
  | nil => intro l2 _ x hx; simp at hx
  | cons b bs ih =>
      intro l2 h x hx
      cases l2 with
      | nil => simp at hx
      | cons p ps =>
          rw [List.zipWith_cons_cons] at hx
          rcases List.mem_cons.1 hx with rfl | hx
          · have hb : b.low ≤ b.high := h b (List.mem_cons_self b bs)
            calc (0 : ℚ) ≤ b.high - b.low := by linarith
            _ ≤ trueRange3 b p.close := le_max_left _ _
          · exact ih ps (fun b2 hb2 => h b2 (List.mem_cons_of_mem _ hb2)) x hx

lemma trueRangeList_nonneg (bars : List Bar)
    (hb : ∀ b ∈ bars, b.low ≤ b.high) : ∀ x ∈ trueRangeList bars, 0 ≤ x := by
  cases bars with
  | nil => simp [trueRangeList]
  | cons b bs =>
      intro x hx
      rw [trueRangeList] at hx
      rcases List.mem_cons.1 hx with rfl | hx
      · have := hb b (List.mem_cons_self b bs); linarith
      · exact trueRange_zip_nonneg bs (b :: bs)
          (fun b2 h2 => hb b2 (List.mem_cons_of_mem _ h2)) x hx

/-- C6: when every bar has `high >= low`, every defined ATR value is
non-negative (the per-bar true range is non-negative, hence so is its
rolling mean), and at the first bar, which has no previous close, the
true range is `high - low`. -/
theorem atr_nonneg_first_bar_high_low (bars : List Bar)
    (hb : ∀ b ∈ bars, b.low ≤ b.high) :
    (∀ (i : ℕ) (q : ℚ), calculate_atr bars 14 i = some q → 0 ≤ q) ∧
    (∀ b bs, bars = b :: bs →
      (trueRangeList bars).head? = some (b.high - b.low)) := by
  constructor
  · intro i q h
    exact rollingMeanO_nonneg (trueRangeList_nonneg bars hb) h
  · rintro b bs rfl
    rfl

/-- Witness for C6 on a concrete flat 14-bar frame with
`high = 2, low = 1, close = 1`: the first defined ATR value is 1, and
the theorem yields its non-negativity and the first true range. -/
theorem atr_nonneg_first_bar_high_low_witness :
    (∀ b ∈ ([⟨2, 1, 1⟩, ⟨2, 1, 1⟩, ⟨2, 1, 1⟩, ⟨2, 1, 1⟩, ⟨2, 1, 1⟩, ⟨2, 1, 1⟩,
        ⟨2, 1, 1⟩, ⟨2, 1, 1⟩, ⟨2, 1, 1⟩, ⟨2, 1, 1⟩, ⟨2, 1, 1⟩, ⟨2, 1, 1⟩,
        ⟨2, 1, 1⟩, ⟨2, 1, 1⟩] : List Bar), b.low ≤ b.high) ∧
    calculate_atr [⟨2, 1, 1⟩, ⟨2, 1, 1⟩, ⟨2, 1, 1⟩, ⟨2, 1, 1⟩, ⟨2, 1, 1⟩,
      ⟨2, 1, 1⟩, ⟨2, 1, 1⟩, ⟨2, 1, 1⟩, ⟨2, 1, 1⟩, ⟨2, 1, 1⟩, ⟨2, 1, 1⟩,
      ⟨2, 1, 1⟩, ⟨2, 1, 1⟩, ⟨2, 1, 1⟩] 14 13 = some 1 ∧
    (0 : ℚ) ≤ 1 ∧
    (trueRangeList [⟨2, 1, 1⟩, ⟨2, 1, 1⟩, ⟨2, 1, 1⟩, ⟨2, 1, 1⟩, ⟨2, 1, 1⟩,
      ⟨2, 1, 1⟩, ⟨2, 1, 1⟩, ⟨2, 1, 1⟩, ⟨2, 1, 1⟩, ⟨2, 1, 1⟩, ⟨2, 1, 1⟩,
      ⟨2, 1, 1⟩, ⟨2, 1, 1⟩, ⟨2, 1, 1⟩]).head? = some ((2 : ℚ) - 1) :=
  have hmem : ∀ b ∈ ([⟨2, 1, 1⟩, ⟨2, 1, 1⟩, ⟨2, 1, 1⟩, ⟨2, 1, 1⟩, ⟨2, 1, 1⟩,
      ⟨2, 1, 1⟩, ⟨2, 1, 1⟩, ⟨2, 1, 1⟩, ⟨2, 1, 1⟩, ⟨2, 1, 1⟩, ⟨2, 1, 1⟩,
      ⟨2, 1, 1⟩, ⟨2, 1, 1⟩, ⟨2, 1, 1⟩] : List Bar), b.low ≤ b.high := by
    intro b hb
    simp only [List.mem_cons, List.not_mem_nil, or_false] at hb
    rcases hb with rfl | rfl | rfl | rfl | rfl | rfl | rfl | rfl | rfl | rfl |
      rfl | rfl | rfl | rfl <;> norm_num
  have hatr : calculate_atr [⟨2, 1, 1⟩, ⟨2, 1, 1⟩, ⟨2, 1, 1⟩, ⟨2, 1, 1⟩,
      ⟨2, 1, 1⟩, ⟨2, 1, 1⟩, ⟨2, 1, 1⟩, ⟨2, 1, 1⟩, ⟨2, 1, 1⟩, ⟨2, 1, 1⟩,
      ⟨2, 1, 1⟩, ⟨2, 1, 1⟩, ⟨2, 1, 1⟩, ⟨2, 1, 1⟩] 14 13 = some 1 := by
    norm_num [calculate_atr, trueRangeList, trueRange3, rollingMeanO]
  ⟨hmem, hatr,
   (atr_nonneg_first_bar_high_low _ hmem).1 13 1 hatr,
   (atr_nonneg_first_bar_high_low _ hmem).2 ⟨2, 1, 1⟩ _ rfl⟩

/-! ### C4 -/

/-- C4: every entry of the RSI column, including the bars where the
undefined rolling value is replaced by the default 50, is a finite
value in the closed interval from 0 to 100. -/
theorem rsi_in_zero_hundred (closes : List ℚ) (i : ℕ) :
    pvInRange 0 100 (rsiFilled closes i) := by
  obtain ⟨q, hq, h0, h100⟩ := rsiFilled_bounds closes i
  rw [hq]
  exact ⟨h0, h100⟩

end StockScreener
